import Mathlib

/-!
Verification of the parking-assist demo repository.

The repository contains three program variants:
  * `src/unnamed/part_000` ("T2" below): rotating car, diagonal corner sensors,
    beep cadence from the closest sensor-obstacle distance, and an
    axis-aligned `parkOccupied` test on the car's global bounding box.
  * `src/main.cpp`, first program ("V1" below): rotating car, occupancy by the
    corner test `isCarParked` over `getCorners` of the car's rectangle.
  * `src/main.cpp`, second program ("V2" below): axis-only movement, decaying
    `distance` timer, `sensorPositionUpdate`.

Real-valued float quantities are modelled exactly: by `ℚ` where the code only
adds, subtracts, multiplies and compares, and by `ℝ` where `sqrt`, `cos`, `sin`
or `π` enter.  A possibly-NaN float is modelled as `Option ℝ` with `none` for
NaN; IEEE comparisons against NaN are false.
-/

/-- A 2D vector over `ℚ` (models `sf::Vector2f`). -/
structure Vec2 where
  x : ℚ
  y : ℚ
deriving DecidableEq, Repr

/-- Models `sf::FloatRect`: top-left position plus size. -/
structure FloatRect where
  posX : ℚ
  posY : ℚ
  sizeX : ℚ
  sizeY : ℚ
deriving DecidableEq, Repr

/-- `parkOccupied` from `src/unnamed/part_000` (lines 202-214): four inclusive
axis-aligned edge comparisons of the car bounds against the park bounds. -/
def parkOccupied (carBounds parkBounds : FloatRect) : Bool :=
  let isLeftInside : Bool := decide (carBounds.posX ≥ parkBounds.posX)
  let isRightInside : Bool :=
    decide ((carBounds.posX + carBounds.sizeX) ≤ (parkBounds.posX + parkBounds.sizeX))
  let isTopInside : Bool := decide (carBounds.posY ≥ parkBounds.posY)
  let isBottomInside : Bool :=
    decide ((carBounds.posY + carBounds.sizeY) ≤ (parkBounds.posY + parkBounds.sizeY))
  isLeftInside && isRightInside && isTopInside && isBottomInside

/-- `sf::FloatRect::contains` (SFML 3 `Rect.inl`): normalizes the rectangle with
min/max (negative sizes allowed) and then tests half-open membership
(`>= min` and `< max` on each axis). -/
def rectContains (r : FloatRect) (p : Vec2) : Bool :=
  let minX := min r.posX (r.posX + r.sizeX)
  let maxX := max r.posX (r.posX + r.sizeX)
  let minY := min r.posY (r.posY + r.sizeY)
  let maxY := max r.posY (r.posY + r.sizeY)
  decide (p.x ≥ minX) && decide (p.x < maxX) && decide (p.y ≥ minY) && decide (p.y < maxY)

/-- `isCarParked` from `src/main.cpp` (first program, lines 129-137): returns
false as soon as one corner is not contained in the parking bounds, true if all
corners pass. -/
def isCarParked (parkingBounds : FloatRect) (corners : List Vec2) : Bool :=
  corners.all (fun corner => rectContains parkingBounds corner)

/-- An SFML `sf::Transform` restricted to its affine 2D part, as produced by
`Transformable::getTransform` (matrix entries plus translation). -/
structure Transform2 where
  a : ℚ
  b : ℚ
  c : ℚ
  d : ℚ
  tx : ℚ
  ty : ℚ
deriving DecidableEq, Repr

/-- `sf::Transform::transformPoint` for the affine transform `t`. -/
def transformPoint (t : Transform2) (p : Vec2) : Vec2 :=
  ⟨t.a * p.x + t.b * p.y + t.tx, t.c * p.x + t.d * p.y + t.ty⟩

/-- `getCorners` from `src/main.cpp` (first program, lines 118-128): the four
transformed corners `(0,0)`, `(size.x,0)`, `(size.x,size.y)`, `(0,size.y)` of a
rectangle shape under its current transform. -/
def getCorners (t : Transform2) (size : Vec2) : List Vec2 :=
  [transformPoint t ⟨0, 0⟩,
   transformPoint t ⟨size.x, 0⟩,
   transformPoint t ⟨size.x, size.y⟩,
   transformPoint t ⟨0, size.y⟩]

/-- A point is inside or on the boundary of the (min/max normalized) closed
rectangle. -/
def insideOrOnBoundary (r : FloatRect) (p : Vec2) : Prop :=
  min r.posX (r.posX + r.sizeX) ≤ p.x ∧ p.x ≤ max r.posX (r.posX + r.sizeX) ∧
  min r.posY (r.posY + r.sizeY) ≤ p.y ∧ p.y ≤ max r.posY (r.posY + r.sizeY)

/-- A point is strictly outside the (min/max normalized) closed rectangle. -/
def strictlyOutside (r : FloatRect) (p : Vec2) : Prop :=
  p.x < min r.posX (r.posX + r.sizeX) ∨ max r.posX (r.posX + r.sizeX) < p.x ∨
  p.y < min r.posY (r.posY + r.sizeY) ∨ max r.posY (r.posY + r.sizeY) < p.y

/-- Claim C1: `parkOccupied` returns true iff all four inclusive edge
comparisons hold (`car.left ≥ park.left`, `car.right ≤ park.right`,
`car.top ≥ park.top`, `car.bottom ≤ park.bottom`); in particular it is true
when the car bounds equal the park bounds, so inclusive boundary touch counts
as contained and any edge crossing outside makes it false. -/
theorem c1_parkOccupied_iff_edges :
    ∀ carB parkB : FloatRect,
      (parkOccupied carB parkB = true ↔
        (parkB.posX ≤ carB.posX ∧
         carB.posX + carB.sizeX ≤ parkB.posX + parkB.sizeX ∧
         parkB.posY ≤ carB.posY ∧
         carB.posY + carB.sizeY ≤ parkB.posY + parkB.sizeY)) ∧
      parkOccupied carB carB = true := by
  intro carB parkB
  constructor
  · simp [parkOccupied, and_assoc, ge_iff_le]
  · simp [parkOccupied]

/-- Claim C2: the corner-based containment test returns true only when every
corner point is inside-or-on-boundary of the outer rectangle, and returns
false whenever any single corner lies strictly outside it. -/
theorem c2_isCarParked_corners :
    ∀ (bounds : FloatRect) (corners : List Vec2),
      (isCarParked bounds corners = true →
        ∀ c ∈ corners, insideOrOnBoundary bounds c) ∧
      (∀ c ∈ corners, strictlyOutside bounds c →
        isCarParked bounds corners = false) := by
  intro bounds corners
  constructor
  · intro h c hc
    have hall := (List.all_eq_true.mp h) c hc
    simp only [rectContains, Bool.and_eq_true, decide_eq_true_eq, ge_iff_le] at hall
    exact ⟨hall.1.1.1, le_of_lt hall.1.1.2, hall.1.2, le_of_lt hall.2⟩
  · intro c hc hout
    rw [← Bool.not_eq_true]
    intro h
    have hall := (List.all_eq_true.mp h) c hc
    simp only [rectContains, Bool.and_eq_true, decide_eq_true_eq, ge_iff_le] at hall
    rcases hout with h1 | h2 | h3 | h4
    · exact absurd hall.1.1.1 (not_le.mpr h1)
    · exact absurd hall.1.1.2 (not_lt.mpr (le_of_lt h2))
    · exact absurd hall.1.2 (not_le.mpr h3)
    · exact absurd hall.2 (not_lt.mpr (le_of_lt h4))

/-- Witness for C2 at a concrete rectangle and corner list: a corner at
`(20, 1)` is strictly outside `[0,10] × [0,10]`, so the test returns false. -/
theorem c2_isCarParked_corners_witness :
    isCarParked ⟨0, 0, 10, 10⟩ [⟨1, 1⟩, ⟨20, 1⟩] = false :=
  (c2_isCarParked_corners ⟨0, 0, 10, 10⟩ [⟨1, 1⟩, ⟨20, 1⟩]).2 ⟨20, 1⟩
    (by simp) (by simp [strictlyOutside]; norm_num)

/-- The axis-aligned bounding rectangle of four points, computed as in
`sf::Transform::transformRect` (running min/max over the four transformed
corners, then `(left, top, right - left, bottom - top)`). -/
def aabb4 (p0 p1 p2 p3 : Vec2) : FloatRect :=
  let left := min (min (min p0.x p1.x) p2.x) p3.x
  let top := min (min (min p0.y p1.y) p2.y) p3.y
  let right := max (max (max p0.x p1.x) p2.x) p3.x
  let bottom := max (max (max p0.y p1.y) p2.y) p3.y
  ⟨left, top, right - left, bottom - top⟩

/-- `carSprite.getGlobalBounds()`: the AABB of the four transformed corners of
the local rectangle `(0, 0, size.x, size.y)` (SFML `Transform::transformRect`
applied to the local bounds). -/
def globalBounds (t : Transform2) (size : Vec2) : FloatRect :=
  aabb4 (transformPoint t ⟨0, 0⟩) (transformPoint t ⟨size.x, 0⟩)
    (transformPoint t ⟨size.x, size.y⟩) (transformPoint t ⟨0, size.y⟩)

/-- The per-tick occupancy decision of `src/unnamed/part_000` (main loop,
lines 392-401): `parkOccupied(carSprite.getGlobalBounds(), parkBounds)`. -/
def occupiedT2 (t : Transform2) (size : Vec2) (park : FloatRect) : Bool :=
  parkOccupied (globalBounds t size) park

/-- The per-tick occupancy decision of the first `src/main.cpp` program
(main loop, lines 297-309): `isCarParked(bounds, getCorners(carBounds))`. -/
def occupiedV1 (park : FloatRect) (t : Transform2) (size : Vec2) : Bool :=
  isCarParked park (getCorners t size)

/-- A point satisfies the four inclusive comparisons against the rectangle's
raw (non-normalized) edges. -/
def insideClosedRaw (r : FloatRect) (p : Vec2) : Prop :=
  r.posX ≤ p.x ∧ p.x ≤ r.posX + r.sizeX ∧ r.posY ≤ p.y ∧ p.y ≤ r.posY + r.sizeY

/-- The edge test on the AABB of four points is equivalent to inclusive (closed)
containment of each of the four points. -/
theorem parkOccupied_aabb4_iff (p0 p1 p2 p3 : Vec2) (park : FloatRect) :
    parkOccupied (aabb4 p0 p1 p2 p3) park = true ↔
      (insideClosedRaw park p0 ∧ insideClosedRaw park p1 ∧
       insideClosedRaw park p2 ∧ insideClosedRaw park p3) := by
  have key : ∀ a b : ℚ, a + (b - a) = b := fun a b => by ring
  simp only [parkOccupied, aabb4, insideClosedRaw, Bool.and_eq_true,
    decide_eq_true_eq, ge_iff_le, key, le_min_iff, max_le_iff]
  tauto

/-- Claim C5 counterexample: in the `part_000` variant (where the car can
rotate) occupancy is not the corner-based test. At the concrete reachable
pose translating the `10 × 10` car rectangle so that its right edge touches
the right edge of the `[0,100] × [0,100]` park, the variant's occupancy
decision (edge comparison on the global AABB) is true while the corner-based
test over the same four transformed corners is false. -/
theorem c5_counterexample :
    occupiedT2 ⟨1, 0, 0, 1, 90, 0⟩ ⟨10, 10⟩ ⟨0, 0, 100, 100⟩ = true ∧
    isCarParked ⟨0, 0, 100, 100⟩ (getCorners ⟨1, 0, 0, 1, 90, 0⟩ ⟨10, 10⟩) = false := by
  constructor
  · simp only [occupiedT2, globalBounds, aabb4, transformPoint, parkOccupied]
    norm_num [min_def, max_def]
  · simp only [isCarParked, getCorners, transformPoint, rectContains, List.all_cons,
      List.all_nil]
    norm_num [min_def, max_def]

/-- Claim C5 amended: the first `src/main.cpp` program decides occupancy by the
corner-based test, but in the `part_000` variant (whose car also rotates)
occupancy is decided by the axis-aligned edge comparison `parkOccupied`
applied to the rotated car's global AABB; that edge test agrees with inclusive
(closed) containment of all four transformed corners, and so can differ from
the half-open point-by-point corner test on boundary touch. -/
theorem c5_occupancy_decision :
    ∀ (t : Transform2) (size : Vec2) (park : FloatRect),
      occupiedT2 t size park = parkOccupied (globalBounds t size) park ∧
      (occupiedT2 t size park = true ↔
        ∀ c ∈ getCorners t size, insideClosedRaw park c) ∧
      occupiedV1 park t size = isCarParked park (getCorners t size) := by
  intro t size park
  refine ⟨rfl, ?_, rfl⟩
  rw [occupiedT2, globalBounds, parkOccupied_aabb4_iff]
  simp only [getCorners, List.mem_cons, List.not_mem_nil, or_false, forall_eq_or_imp,
    forall_eq]

/-- One tick of the decay-timer update in the second `src/main.cpp` program
(lines 568-571 of the concatenated file): `distance -= DISTANCE_DECREASE;`
then `if (distance < DISTANCE_MIN) distance = DISTANCE_MAX;` with
`DISTANCE_DECREASE = 0.5`, `DISTANCE_MIN = 10`, `DISTANCE_MAX = 100`. -/
def decayStep (d : ℚ) : ℚ :=
  if d - 0.5 < 10 then 100 else d - 0.5

/-- The decay-timer value after `n` ticks, starting from
`distance = DISTANCE_MAX = 100`. -/
def decaySeq : ℕ → ℚ
  | 0 => 100
  | n + 1 => decayStep (decaySeq n)

/-- The observable decay values follow the closed form `100 - n/2` for the
first 180 ticks. -/
theorem decaySeq_closed_form (n : ℕ) (h : n ≤ 180) :
    decaySeq n = 100 - (n : ℚ) / 2 := by
  induction n with
  | zero => norm_num [decaySeq]
  | succ k ih =>
    have hk : k ≤ 180 := Nat.le_of_succ_le h
    have hk179 : (k : ℚ) ≤ 179 := by exact_mod_cast Nat.lt_succ_iff.mp h
    rw [show decaySeq (k + 1) = decayStep (decaySeq k) from rfl, ih hk, decayStep,
      if_neg (by simp only [not_lt]; linarith)]
    push_cast
    ring

/-- The stored decay value never goes below the minimum after any step. -/
theorem decayStep_ge_min (d : ℚ) : 10 ≤ decayStep d := by
  rw [decayStep]
  split
  · norm_num
  · linarith [not_lt.mp (by assumption : ¬ d - 0.5 < 10)]

/-- Claim C7: the decay timer starts at the maximum 100 and decreases by 0.5
each tick; ticks 0..180 follow `100 - n/2`, so the value reaches the minimum
10 at tick 180 without being reset within that tick, and the reset to 100
appears exactly one tick later, at tick 181; the stored value never drops
below the minimum, and a step resets exactly when the decrement would cross
below the minimum. -/
theorem c7_decay_reset :
    (∀ n : ℕ, n ≤ 180 → decaySeq n = 100 - (n : ℚ) / 2) ∧
    decaySeq 180 = 10 ∧
    decaySeq 181 = 100 ∧
    (∀ n : ℕ, 10 ≤ decaySeq n) ∧
    (∀ d : ℚ, 10 ≤ d - 0.5 → decayStep d = d - 0.5) ∧
    (∀ d : ℚ, d - 0.5 < 10 → decayStep d = 100) := by
  have h180 : decaySeq 180 = 10 := by
    rw [decaySeq_closed_form 180 (by norm_num)]
    norm_num
  refine ⟨fun n h => decaySeq_closed_form n h, h180, ?_, ?_, ?_, ?_⟩
  · rw [show decaySeq 181 = decayStep (decaySeq 180) from rfl, h180, decayStep]
    norm_num
  · intro n
    cases n with
    | zero => norm_num [decaySeq]
    | succ k => exact decayStep_ge_min (decaySeq k)
  · intro d hd
    rw [decayStep, if_neg (not_lt.mpr hd)]
  · intro d hd
    rw [decayStep, if_pos hd]

/-- Witness for C7 at the concrete tick 4: the theorem's closed form gives
`decaySeq 4 = 100 - 4/2`. -/
theorem c7_decay_reset_witness : decaySeq 4 = 100 - ((4 : ℕ) : ℚ) / 2 :=
  c7_decay_reset.1 4 (by norm_num)

/-- The keyboard state read by the movement updates: one flag per movement
input (`W`/`Up`, `S`/`Down`, `A`/`Left`, `D`/`Right`). -/
structure Keys where
  w : Bool
  s : Bool
  a : Bool
  d : Bool
deriving DecidableEq, Repr

/-- The per-tick movement delta of the second `src/main.cpp` program
(lines 576-592 of the concatenated file): starts from `(0,0)` and, for each
pressed direction key, adds `± CAR_SPEED * deltaTime` (`CAR_SPEED = 300`)
along the corresponding axis. -/
def movementV2 (k : Keys) (deltaTime : ℚ) : Vec2 :=
  let m0 : Vec2 := ⟨0, 0⟩
  let m1 := if k.w then (⟨m0.x, m0.y - 300 * deltaTime⟩ : Vec2) else m0
  let m2 := if k.s then (⟨m1.x, m1.y + 300 * deltaTime⟩ : Vec2) else m1
  let m3 := if k.a then (⟨m2.x - 300 * deltaTime, m2.y⟩ : Vec2) else m2
  if k.d then (⟨m3.x + 300 * deltaTime, m3.y⟩ : Vec2) else m3

/-- Claim C8 counterexample: a negative elapsed time is not treated as a
no-op. With only `W` pressed and `deltaTime = -1`, the movement update of the
second `src/main.cpp` program yields the nonzero delta `(0, 300)`. -/
theorem c8_counterexample :
    movementV2 ⟨true, false, false, false⟩ (-1) = (⟨0, 300⟩ : Vec2) ∧
    movementV2 ⟨true, false, false, false⟩ (-1) ≠ (⟨0, 0⟩ : Vec2) := by
  constructor
  · simp only [movementV2, if_true, if_false]
    norm_num
  · simp only [movementV2, if_true, if_false, ne_eq, Vec2.mk.injEq]
    norm_num

/-- A sensor indicator's state relevant to the layout updaters: world position
and stored rotation (degrees). -/
structure Sensor where
  pos : Vec2
  rot : ℚ
deriving DecidableEq, Repr

/-- `sf::Angle::wrapUnsigned` as applied by `Transformable::setRotation`:
the stored rotation is the angle reduced to the range `[0, 360)`. -/
def wrapUnsigned (angle : ℚ) : ℚ :=
  angle - 360 * (⌊angle / 360⌋ : ℚ)

/-- `createSensorIndicators` from `src/unnamed/part_000` (lines 120-136):
`SENSOR_COUNT = 4` green rectangles at `(START_X + i * SPACING, START_Y)` with
the default rotation `0`. -/
def createSensorIndicatorsT2 : List Sensor :=
  (List.range 4).map (fun i => ⟨⟨800 + (i : ℚ) * 100, 200⟩, 0⟩)

/-- `updateSensorPositions` from `src/unnamed/part_000` (lines 155-199):
overwrites the rotation and position of sensors 0..3 from the car's current
global bounds, using the fixed corner-offset rules
(`SENSOR_HALF_WIDTH = 15`, `SENSOR_LENGTH = 100`, `DIAGONAL_OFFSET = 10`) and
the fixed rotations 45, 315, 135, 225 degrees. -/
def updateSensorPositions (sensors : List Sensor) (carBounds : FloatRect) :
    List Sensor :=
  let halfW : ℚ := 30 / 2
  let len : ℚ := 100
  let off : ℚ := 10
  let s0 : Sensor :=
    ⟨⟨carBounds.posX - halfW - off, carBounds.posY - len + halfW - off⟩,
     wrapUnsigned 45⟩
  let s1 : Sensor :=
    ⟨⟨carBounds.posX + carBounds.sizeX + halfW + off, carBounds.posY - halfW - off⟩,
     wrapUnsigned 315⟩
  let s2 : Sensor :=
    ⟨⟨carBounds.posX - halfW - off, carBounds.posY + carBounds.sizeY + halfW + off⟩,
     wrapUnsigned 135⟩
  let s3 : Sensor :=
    ⟨⟨carBounds.posX + carBounds.sizeX + halfW + off,
      carBounds.posY + carBounds.sizeY + halfW + off⟩,
     wrapUnsigned 225⟩
  (((sensors.set 0 s0).set 1 s1).set 2 s2).set 3 s3

/-- `sensorPositionUpdate` from the second `src/main.cpp` program (lines
486-518 of the concatenated file): overwrites the rotation and position of
sensors 0..3 from the car's center and global bounds, with the fixed rotations
45, -45, 135, -135 degrees (stored wrapped to `[0, 360)` by `setRotation`). -/
def sensorPositionUpdate (sensors : List Sensor) (carBounds : FloatRect)
    (carCenter : Vec2) : List Sensor :=
  let s0 : Sensor :=
    ⟨⟨carCenter.x - 30 * 16, carBounds.posY - 100⟩, wrapUnsigned 45⟩
  let s1 : Sensor :=
    ⟨⟨carCenter.x + 30 * 16, carBounds.posY - 100⟩, wrapUnsigned (-45)⟩
  let s2 : Sensor :=
    ⟨⟨carCenter.x - 30 * 16, carBounds.posY + 100 * 5⟩, wrapUnsigned 135⟩
  let s3 : Sensor :=
    ⟨⟨carCenter.x + 30 * 16, carBounds.posY + 100 * 5⟩, wrapUnsigned (-135)⟩
  (((sensors.set 0 s0).set 1 s1).set 2 s2).set 3 s3

/-- A list of length 4 is a four-element literal. -/
theorem exists_four_of_length_eq {α : Type} (l : List α) (h : l.length = 4) :
    ∃ a b c d : α, l = [a, b, c, d] := by
  rcases l with _ | ⟨a, _ | ⟨b, _ | ⟨c, _ | ⟨d, _ | ⟨e, l⟩⟩⟩⟩⟩ <;>
    simp only [List.length_nil, List.length_cons] at h <;> try omega
  exact ⟨a, b, c, d, rfl⟩

/-- Claim C9: the sensor count is fixed at 4; each tick both layout updaters
produce sensors whose position and rotation are a function of the body's
current bounds (and center) only — the output does not depend on the previous
sensor state, so nothing accumulates or drifts — and every updated sensor's
stored rotation is one of the fixed diagonal angles 45, 135, 225, 315 degrees,
independent of the body's heading. -/
theorem c9_sensor_layout :
    createSensorIndicatorsT2.length = 4 ∧
    (∀ (prev prev2 : List Sensor) (cb : FloatRect),
      prev.length = 4 → prev2.length = 4 →
      updateSensorPositions prev cb = updateSensorPositions prev2 cb ∧
      (updateSensorPositions prev cb).length = 4 ∧
      ∀ s ∈ updateSensorPositions prev cb,
        s.rot = 45 ∨ s.rot = 135 ∨ s.rot = 225 ∨ s.rot = 315) ∧
    (∀ (prev prev2 : List Sensor) (cb : FloatRect) (cc : Vec2),
      prev.length = 4 → prev2.length = 4 →
      sensorPositionUpdate prev cb cc = sensorPositionUpdate prev2 cb cc ∧
      (sensorPositionUpdate prev cb cc).length = 4 ∧
      ∀ s ∈ sensorPositionUpdate prev cb cc,
        s.rot = 45 ∨ s.rot = 135 ∨ s.rot = 225 ∨ s.rot = 315) := by
  have w45 : wrapUnsigned 45 = 45 := by
    rw [wrapUnsigned]
    norm_num [Int.floor_eq_zero_iff, Set.mem_Ico]
  have w135 : wrapUnsigned 135 = 135 := by
    rw [wrapUnsigned]
    norm_num [Int.floor_eq_zero_iff, Set.mem_Ico]
  have w225 : wrapUnsigned 225 = 225 := by
    rw [wrapUnsigned]
    norm_num [Int.floor_eq_zero_iff, Set.mem_Ico]
  have w315 : wrapUnsigned 315 = 315 := by
    rw [wrapUnsigned]
    norm_num [Int.floor_eq_zero_iff, Set.mem_Ico]
  have wneg45 : wrapUnsigned (-45) = 315 := by
    rw [wrapUnsigned]
    have : ⌊(-45 : ℚ) / 360⌋ = -1 := by
      rw [Int.floor_eq_iff]
      norm_num
    rw [this]
    norm_num
  have wneg135 : wrapUnsigned (-135) = 225 := by
    rw [wrapUnsigned]
    have : ⌊(-135 : ℚ) / 360⌋ = -1 := by
      rw [Int.floor_eq_iff]
      norm_num
    rw [this]
    norm_num
  refine ⟨rfl, ?_, ?_⟩
  · intro prev prev2 cb h1 h2
    obtain ⟨a, b, c, d, rfl⟩ := exists_four_of_length_eq prev h1
    obtain ⟨a2, b2, c2, d2, rfl⟩ := exists_four_of_length_eq prev2 h2
    refine ⟨rfl, rfl, ?_⟩
    intro s hs
    simp only [updateSensorPositions, List.set_cons_zero, List.set_cons_succ,
      List.mem_cons, List.not_mem_nil, or_false] at hs
    rcases hs with rfl | rfl | rfl | rfl
    · exact Or.inl w45
    · exact Or.inr (Or.inr (Or.inr w315))
    · exact Or.inr (Or.inl w135)
    · exact Or.inr (Or.inr (Or.inl w225))
  · intro prev prev2 cb cc h1 h2
    obtain ⟨a, b, c, d, rfl⟩ := exists_four_of_length_eq prev h1
    obtain ⟨a2, b2, c2, d2, rfl⟩ := exists_four_of_length_eq prev2 h2
    refine ⟨rfl, rfl, ?_⟩
    intro s hs
    simp only [sensorPositionUpdate, List.set_cons_zero, List.set_cons_succ,
      List.mem_cons, List.not_mem_nil, or_false] at hs
    rcases hs with rfl | rfl | rfl | rfl
    · exact Or.inl w45
    · exact Or.inr (Or.inr (Or.inr wneg45))
    · exact Or.inr (Or.inl w135)
    · exact Or.inr (Or.inr (Or.inl wneg135))

/-- Witness for C9: instantiating both updaters at two concrete previous
sensor states of length 4 and a concrete car pose, the outputs coincide. -/
theorem c9_sensor_layout_witness :
    updateSensorPositions createSensorIndicatorsT2 ⟨0, 0, 50, 80⟩ =
      updateSensorPositions [⟨⟨1, 1⟩, 7⟩, ⟨⟨2, 2⟩, 8⟩, ⟨⟨3, 3⟩, 9⟩, ⟨⟨4, 4⟩, 11⟩]
        ⟨0, 0, 50, 80⟩ :=
  (c9_sensor_layout.2.1 createSensorIndicatorsT2
    [⟨⟨1, 1⟩, 7⟩, ⟨⟨2, 2⟩, 8⟩, ⟨⟨3, 3⟩, 9⟩, ⟨⟨4, 4⟩, 11⟩] ⟨0, 0, 50, 80⟩
    rfl rfl).1

/-- A 2D vector over `ℝ`, for the quantities flowing through `sqrt`, `cos`
and `sin`. -/
structure RVec2 where
  x : ℝ
  y : ℝ

/-- `distance` from `src/unnamed/part_000` (lines 71-75):
`sqrt(dx * dx + dy * dy)`. -/
noncomputable def distance (a b : RVec2) : ℝ :=
  Real.sqrt ((b.x - a.x) * (b.x - a.x) + (b.y - a.y) * (b.y - a.y))

/-- `std::numeric_limits<float>::max()`, the initial value of `closestDist`
in `playBeepIfNear`: `(2 - 2^-23) * 2^127 = 2^128 - 2^104`. -/
noncomputable def FLOAT_LIMIT : ℝ := 2 ^ 128 - 2 ^ 104

/-- The nested loops of `playBeepIfNear` (`src/unnamed/part_000`, lines
83-93): fold over every sensor and every obstacle (`stup`), keeping the
smallest `distance(sensorPos, stup.getPosition())` seen so far, starting from
`FLOAT_LIMIT`. -/
noncomputable def closestDist (sensors stupovi : List RVec2) : ℝ :=
  sensors.foldl
    (fun closest sensorPos =>
      stupovi.foldl
        (fun closest2 stupPos =>
          if distance sensorPos stupPos < closest2 then distance sensorPos stupPos
          else closest2)
        closest)
    FLOAT_LIMIT

/-- A fold whose step never increases the accumulator is bounded by its
initial value. -/
theorem foldl_step_le_init {α : Type} (F : ℝ → α → ℝ) (hF : ∀ a x, F a x ≤ a) :
    ∀ (l : List α) (acc : ℝ), l.foldl F acc ≤ acc := by
  intro l
  induction l with
  | nil => intro acc; simp
  | cons y l ih =>
    intro acc
    simp only [List.foldl_cons]
    exact le_trans (ih (F acc y)) (hF acc y)

/-- A fold whose step never increases the accumulator and whose step at `x`
is bounded by `B` yields a result bounded by `B` whenever `x` occurs in the
list. -/
theorem foldl_step_le_of_mem {α : Type} (F : ℝ → α → ℝ) (hF : ∀ a x, F a x ≤ a)
    (B : ℝ) (x : α) (hB : ∀ a, F a x ≤ B) :
    ∀ (l : List α), x ∈ l → ∀ acc : ℝ, l.foldl F acc ≤ B := by
  intro l
  induction l with
  | nil => intro hx; cases hx
  | cons y l ih =>
    intro hx acc
    simp only [List.foldl_cons]
    rcases List.mem_cons.mp hx with rfl | hmem
    · exact le_trans (foldl_step_le_init F hF l (F acc x)) (hB acc)
    · exact ih hmem (F acc y)

/-- A fold whose every step either keeps the accumulator or produces a value
satisfying `C` ends in the initial value or in a value satisfying `C`. -/
theorem foldl_step_cases {α : Type} (F : ℝ → α → ℝ) (C : ℝ → Prop) :
    ∀ l : List α, (∀ a : ℝ, ∀ x ∈ l, F a x = a ∨ C (F a x)) →
      ∀ acc : ℝ, l.foldl F acc = acc ∨ C (l.foldl F acc) := by
  intro l
  induction l with
  | nil => intro _ acc; exact Or.inl rfl
  | cons y l ih =>
    intro hF acc
    simp only [List.foldl_cons]
    rcases ih (fun a x hx => hF a x (List.mem_cons_of_mem y hx)) (F acc y) with h | h
    · rw [h]
      exact hF acc y (List.mem_cons_self y l)
    · exact Or.inr h

/-- IEEE-style `<=` against a possibly-NaN float: every comparison with NaN
(modelled as `none`) is false. -/
noncomputable def floatLe (v : Option ℝ) (threshold : ℝ) : Bool :=
  match v with
  | none => false
  | some d => decide (d ≤ threshold)

/-- The threshold ladder of `playBeepIfNear` (`src/unnamed/part_000`, lines
95-105): `interval = 0.0`, overwritten by the first matching tier of
`<= 80 → 0.1`, `<= 180 → 0.25`, `<= 300 → 0.5`; the argument is the possibly
NaN closest distance. -/
noncomputable def beepIntervalF (closest : Option ℝ) : ℝ :=
  if floatLe closest 80 then 0.1
  else if floatLe closest 180 then 0.25
  else if floatLe closest 300 then 0.5
  else 0

/-- The threshold ladder applied to an ordinary (non-NaN) distance. -/
noncomputable def beepIntervalR (closest : ℝ) : ℝ :=
  beepIntervalF (some closest)

/-- The single shared beep interval computed by one call of `playBeepIfNear`:
the ladder applied to the closest distance over all sensors and obstacles. -/
noncomputable def playBeepIfNearInterval (sensors stupovi : List RVec2) : ℝ :=
  let closest := closestDist sensors stupovi
  if closest ≤ 80 then 0.1
  else if closest ≤ 180 then 0.25
  else if closest ≤ 300 then 0.5
  else 0

/-- The guard of `playBeepIfNear` (line 107): the beep fires exactly when the
time since the last beep has reached the interval. -/
def beepFires (timeSinceLastBeep interval : ℝ) : Prop :=
  timeSinceLastBeep ≥ interval

/-- Claim C3: the proximity-to-feedback mapper checks the ordered thresholds
smallest-first with inclusive boundaries and returns the first matching tier:
any distance at most 80 maps to 0.1, distances in (80, 180] to 0.25,
distances in (180, 300] to 0.5, and beyond 300 the default 0 remains; in
particular 79 and 80 map to 0.1, 81 maps to 0.25, and 301 maps to the
default. -/
theorem c3_threshold_mapper :
    (∀ d : ℝ, d ≤ 80 → beepIntervalR d = 0.1) ∧
    (∀ d : ℝ, 80 < d → d ≤ 180 → beepIntervalR d = 0.25) ∧
    (∀ d : ℝ, 180 < d → d ≤ 300 → beepIntervalR d = 0.5) ∧
    (∀ d : ℝ, 300 < d → beepIntervalR d = 0) ∧
    beepIntervalR 79 = 0.1 ∧ beepIntervalR 80 = 0.1 ∧
    beepIntervalR 81 = 0.25 ∧ beepIntervalR 301 = 0 := by
  have t1 : ∀ d : ℝ, d ≤ 80 → beepIntervalR d = 0.1 := by
    intro d h
    simp [beepIntervalR, beepIntervalF, floatLe, h]
  have t2 : ∀ d : ℝ, 80 < d → d ≤ 180 → beepIntervalR d = 0.25 := by
    intro d h80 h
    simp [beepIntervalR, beepIntervalF, floatLe, h, not_le.mpr h80]
  have t3 : ∀ d : ℝ, 180 < d → d ≤ 300 → beepIntervalR d = 0.5 := by
    intro d h180 h
    have h80 : ¬ (d ≤ 80) := not_le.mpr (by linarith)
    have h180n : ¬ (d ≤ 180) := not_le.mpr h180
    simp [beepIntervalR, beepIntervalF, floatLe, h, h80, h180n]
  have t4 : ∀ d : ℝ, 300 < d → beepIntervalR d = 0 := by
    intro d h300
    have h80 : ¬ (d ≤ 80) := not_le.mpr (by linarith)
    have h180n : ¬ (d ≤ 180) := not_le.mpr (by linarith)
    have h300n : ¬ (d ≤ 300) := not_le.mpr h300
    simp [beepIntervalR, beepIntervalF, floatLe, h80, h180n, h300n]
  exact ⟨t1, t2, t3, t4, t1 79 (by norm_num), t1 80 (by norm_num),
    t2 81 (by norm_num) (by norm_num), t4 301 (by norm_num)⟩

/-- Witness for C3 at the concrete distance 50: tier 0.1. -/
theorem c3_threshold_mapper_witness : beepIntervalR 50 = 0.1 :=
  c3_threshold_mapper.1 50 (by norm_num)

/-- Claim C4: the distance fed to the feedback mapper by `playBeepIfNear` is
the minimum Euclidean distance over the full cross product of sensors and
obstacles: the folded value is a lower bound of every sensor-obstacle
distance, and is either the float-limit start value or attained by some
sensor-obstacle pair; the resulting beep interval is the single shared value
obtained by applying the threshold mapper to that global minimum. -/
theorem c4_min_over_cross_product :
    ∀ sensors stupovi : List RVec2,
      (∀ s ∈ sensors, ∀ o ∈ stupovi, closestDist sensors stupovi ≤ distance s o) ∧
      (closestDist sensors stupovi = FLOAT_LIMIT ∨
        ∃ s ∈ sensors, ∃ o ∈ stupovi,
          closestDist sensors stupovi = distance s o) ∧
      playBeepIfNearInterval sensors stupovi =
        beepIntervalR (closestDist sensors stupovi) := by
  intro sensors stupovi
  have step_le : ∀ (x : RVec2) (a : ℝ) (o : RVec2),
      (if distance x o < a then distance x o else a) ≤ a := by
    intro x a o
    split
    · exact le_of_lt (by assumption)
    · exact le_refl a
  have inner_le_init : ∀ (x : RVec2) (a : ℝ),
      stupovi.foldl
        (fun c2 sp => if distance x sp < c2 then distance x sp else c2) a ≤ a :=
    fun x a => foldl_step_le_init _ (step_le x) stupovi a
  refine ⟨?_, ?_, ?_⟩
  · intro s hs o ho
    have hB : ∀ a : ℝ,
        stupovi.foldl
          (fun c2 sp => if distance s sp < c2 then distance s sp else c2) a ≤
          distance s o := by
      intro a
      refine foldl_step_le_of_mem _ (step_le s) (distance s o) o ?_ stupovi ho a
      intro a2
      split
      · exact le_refl _
      · exact le_of_not_lt (by assumption)
    exact foldl_step_le_of_mem _ (fun a x => inner_le_init x a) (distance s o) s hB
      sensors hs FLOAT_LIMIT
  · have hstepcases : ∀ (x : RVec2) (a2 : ℝ), ∀ o ∈ stupovi,
        (if distance x o < a2 then distance x o else a2) = a2 ∨
          ∃ o2 ∈ stupovi,
            (if distance x o < a2 then distance x o else a2) = distance x o2 := by
      intro x a2 o ho
      split
      · exact Or.inr ⟨o, ho, rfl⟩
      · exact Or.inl rfl
    simp only [closestDist]
    refine foldl_step_cases _
      (fun v => ∃ s ∈ sensors, ∃ o ∈ stupovi, v = distance s o) sensors ?_ FLOAT_LIMIT
    intro a x hx
    rcases foldl_step_cases
        (fun c2 sp => if distance x sp < c2 then distance x sp else c2)
        (fun v => ∃ o2 ∈ stupovi, v = distance x o2) stupovi
        (hstepcases x) a with h | ⟨o, ho, h⟩
    · exact Or.inl h
    · exact Or.inr ⟨x, hx, o, ho, h⟩
  · simp [playBeepIfNearInterval, beepIntervalR, beepIntervalF, floatLe]

/-- Witness for C4 with one sensor and one obstacle: the folded closest
distance is a lower bound of the single pair's distance. -/
theorem c4_min_over_cross_product_witness :
    closestDist [⟨0, 0⟩] [⟨3, 4⟩] ≤ distance ⟨0, 0⟩ ⟨3, 4⟩ :=
  (c4_min_over_cross_product [⟨0, 0⟩] [⟨3, 4⟩]).1 ⟨0, 0⟩ (by simp) ⟨3, 4⟩ (by simp)

/-- Claim C10: when no threshold matches — the closest distance exceeds 300,
or is NaN so every comparison is false — the beep interval keeps its default
value 0, and then the guard `timeSinceLastBeep >= interval` holds on every
frame (any elapsed time `t ≥ 0`), so the beep is (re)triggered every tick:
the default tier beeps most frequently rather than being silent. -/
theorem c10_no_match_beeps_every_tick :
    ∀ d : Option ℝ,
      (d = none ∨ ∃ x : ℝ, d = some x ∧ 300 < x) →
      beepIntervalF d = 0 ∧ ∀ t : ℝ, 0 ≤ t → beepFires t (beepIntervalF d) := by
  intro d hd
  have h0 : beepIntervalF d = 0 := by
    rcases hd with rfl | ⟨x, rfl, hx⟩
    · simp [beepIntervalF, floatLe]
    · have h80 : ¬ (x ≤ 80) := not_le.mpr (by linarith)
      have h180 : ¬ (x ≤ 180) := not_le.mpr (by linarith)
      have h300 : ¬ (x ≤ 300) := not_le.mpr hx
      simp [beepIntervalF, floatLe, h80, h180, h300]
  refine ⟨h0, ?_⟩
  intro t ht
  rw [beepFires, h0]
  exact ht

/-- Witness for C10 at the concrete distance 301 and elapsed time 5. -/
theorem c10_no_match_beeps_every_tick_witness :
    beepIntervalF (some 301) = 0 ∧ beepFires 5 (beepIntervalF (some 301)) :=
  ⟨(c10_no_match_beeps_every_tick (some 301) (Or.inr ⟨301, rfl, by norm_num⟩)).1,
   (c10_no_match_beeps_every_tick (some 301)
     (Or.inr ⟨301, rfl, by norm_num⟩)).2 5 (by norm_num)⟩

/-- The pi constant of `src/unnamed/part_000` (`constants::PI = 3.14`). -/
noncomputable def PI_T2 : ℝ := 3.14

/-- The pi constant of the first `src/main.cpp` program (`3.14159265f`). -/
noncomputable def PI_V1 : ℝ := 3.14159265

/-- Degrees-to-radians conversion as written in `src/unnamed/part_000`
(line 333): `deg * (PI / 180.0F)` with `PI = 3.14`. -/
noncomputable def radT2 (deg : ℝ) : ℝ := deg * (PI_T2 / 180)

/-- Degrees-to-radians conversion as written in the first `src/main.cpp`
program (line 246): `deg * 3.14159265f / 180.f`. -/
noncomputable def radV1 (deg : ℝ) : ℝ := deg * PI_V1 / 180

/-- The forward position delta of `src/unnamed/part_000` (lines 332-345):
`(cos(rad) * (speed * dt), sin(rad) * (speed * dt))`; in the source `speed`
is `constants::CAR_SPEED = 500`. -/
noncomputable def moveDeltaT2 (rotDeg speed dt : ℝ) : ℝ × ℝ :=
  (Real.cos (radT2 rotDeg) * (speed * dt), Real.sin (radT2 rotDeg) * (speed * dt))

/-- The forward position delta of the first `src/main.cpp` program (lines
258-262): `(cos(rad) * speed, sin(rad) * speed)` with `speed = 7` per frame
and no elapsed-time factor. -/
noncomputable def moveDeltaV1 (rotDeg : ℝ) : ℝ × ℝ :=
  (Real.cos (radV1 rotDeg) * 7, Real.sin (radV1 rotDeg) * 7)

/-- The forward unit vector at a heading given in degrees, following the
specification's words: degrees converted to radians (with the exact `π`)
before applying cosine and sine. -/
noncomputable def forwardUnitVecSpec (deg : ℝ) : ℝ × ℝ :=
  (Real.cos (deg * (Real.pi / 180)), Real.sin (deg * (Real.pi / 180)))

/-- Claim C6 counterexample: at heading 90 degrees with `speed * dt = 1`, the
`part_000` integrator's delta (computed with the conversion constant 3.14) is
not the forward unit vector at 90 degrees: its x-component `cos 1.57` is
strictly positive while the true forward unit vector has x-component
`cos (π/2) = 0`. -/
theorem c6_counterexample : moveDeltaT2 90 1 1 ≠ forwardUnitVecSpec 90 := by
  intro h
  have h1 : Real.cos (radT2 90) * (1 * 1) = Real.cos (90 * (Real.pi / 180)) :=
    congrArg Prod.fst h
  have hrad : radT2 90 = 1.57 := by
    rw [radT2, PI_T2]
    norm_num
  have hspec : (90 : ℝ) * (Real.pi / 180) = Real.pi / 2 := by ring
  rw [hrad, hspec, Real.cos_pi_div_two, mul_one] at h1
  have hpos : 0 < Real.cos (1.57 : ℝ) := by
    apply Real.cos_pos_of_mem_Ioo
    constructor
    · have hp : 0 < Real.pi := Real.pi_pos
      norm_num
      linarith
    · have h314 : (3.14 : ℝ) < Real.pi := Real.pi_gt_d2
      norm_num
      linarith
  have h2 : Real.cos (1.57 : ℝ) = 0 := by linarith
  rw [h2] at hpos
  exact lt_irrefl 0 hpos

/-- Claim C6 amended: both integrators compute the delta along the unit
vector at the converted angle `deg * (PI/180)` where `PI` is the variant's
constant (3.14 in `part_000`, 3.14159265 in `src/main.cpp`), and the delta's
magnitude is exactly `|speed| * dt` for the `part_000` integrator (given
`dt ≥ 0`) and exactly the per-frame speed 7 for the `src/main.cpp` one, which
multiplies by no elapsed time. -/
theorem c6_integrator_magnitude_direction :
    ∀ rotDeg speed dt : ℝ,
      moveDeltaT2 rotDeg speed dt =
        ((speed * dt) * Real.cos (radT2 rotDeg),
         (speed * dt) * Real.sin (radT2 rotDeg)) ∧
      (0 ≤ dt →
        Real.sqrt ((moveDeltaT2 rotDeg speed dt).1 ^ 2 +
          (moveDeltaT2 rotDeg speed dt).2 ^ 2) = |speed| * dt) ∧
      Real.sqrt ((moveDeltaV1 rotDeg).1 ^ 2 + (moveDeltaV1 rotDeg).2 ^ 2) = 7 := by
  intro rotDeg speed dt
  have habs : ∀ a b : ℝ, 0 ≤ b →
      Real.sqrt ((Real.cos a * b) ^ 2 + (Real.sin a * b) ^ 2) = b := by
    intro a b hb
    have hsq : (Real.cos a * b) ^ 2 + (Real.sin a * b) ^ 2 = b ^ 2 := by
      have hpyth := Real.sin_sq_add_cos_sq a
      nlinarith [hpyth]
    rw [hsq, Real.sqrt_sq_eq_abs, abs_of_nonneg hb]
  refine ⟨?_, ?_, ?_⟩
  · rw [moveDeltaT2]
    simp only [Prod.mk.injEq]
    constructor <;> ring
  · intro hdt
    have habs2 :
        Real.sqrt ((Real.cos (radT2 rotDeg) * (speed * dt)) ^ 2 +
          (Real.sin (radT2 rotDeg) * (speed * dt)) ^ 2) = |speed * dt| := by
      have hsq : (Real.cos (radT2 rotDeg) * (speed * dt)) ^ 2 +
          (Real.sin (radT2 rotDeg) * (speed * dt)) ^ 2 = (speed * dt) ^ 2 := by
        have hpyth := Real.sin_sq_add_cos_sq (radT2 rotDeg)
        nlinarith [hpyth]
      rw [hsq, Real.sqrt_sq_eq_abs]
    rw [moveDeltaT2]
    simp only at habs2 ⊢
    rw [habs2, abs_mul, abs_of_nonneg hdt]
  · rw [moveDeltaV1]
    simp only
    exact habs (radV1 rotDeg) 7 (by norm_num)

/-- Witness for C6 (amended) at heading 0, speed 500 and elapsed time 1: the
delta's magnitude is `|500| * 1`. -/
theorem c6_integrator_magnitude_direction_witness :
    Real.sqrt ((moveDeltaT2 0 500 1).1 ^ 2 + (moveDeltaT2 0 500 1).2 ^ 2) =
      |(500 : ℝ)| * 1 :=
  (c6_integrator_magnitude_direction 0 500 1).2.1 (by norm_num)

/-- The movement delta of `src/unnamed/part_000` (lines 332-353): starting
from `(0,0)`, `W` adds the forward vector scaled by `CAR_SPEED * deltaTime`
(`CAR_SPEED = 500`) and `S` subtracts it. -/
noncomputable def movementT2 (k : Keys) (rotDeg dt : ℝ) : ℝ × ℝ :=
  let forwardX := Real.cos (radT2 rotDeg)
  let forwardY := Real.sin (radT2 rotDeg)
  let distancePerFrame := 500 * dt
  let m1 : ℝ × ℝ :=
    if k.w then (forwardX * distancePerFrame, forwardY * distancePerFrame)
    else (0, 0)
  if k.s then (m1.1 - forwardX * distancePerFrame, m1.2 - forwardY * distancePerFrame)
  else m1

/-- Claim C8 amended: a zero elapsed time is a no-op for every heading and
input state — both movement updates produce the zero delta — while a negative
elapsed time is not guarded against and yields a nonzero reversed delta when
a movement key is pressed (the surrounding loops obtain `dt` from
`sf::Clock::restart`, which never returns a negative time). -/
theorem c8_zero_dt_noop :
    ∀ (k : Keys) (rotDeg : ℝ),
      movementV2 k 0 = (⟨0, 0⟩ : Vec2) ∧ movementT2 k rotDeg 0 = ((0 : ℝ), (0 : ℝ)) := by
  intro k rotDeg
  constructor
  · rcases k with ⟨w, s, a, d⟩
    simp only [movementV2, mul_zero]
    cases w <;> cases s <;> cases a <;> cases d <;> simp
  · rcases k with ⟨w, s, a, d⟩
    simp only [movementT2, mul_zero]
    cases w <;> cases s <;> simp
